import Mathlib

/-!
Verification of the resource-graph composition logic of the portfolio
infrastructure repository: the deterministic ALB listener-rule priority
hash, app-unit configuration parsing and defaults, conditional subsystem
composition (scheduled scaling, Fargate Spot strategy, shared database),
cross-stack output resolution, and derived outputs.

All executable definitions are shallow embeddings of the TypeScript
source (the app-unit `index.ts` template, `platform/index.ts`,
`platform/alb.ts`, `platform/rds.ts`, `platform/vpc.ts`,
`platform/dns.ts`, `platform/ecs.ts`).
-/

namespace Infra

/-! ## JavaScript primitive semantics -/

/-- JavaScript `ToInt32`: wrap an integer to the 32-bit signed range
`[-2^31, 2^31)`, as performed by JS bitwise operators (`<<`, `&`). -/
def toInt32 (x : Int) : Int :=
  (x + 2 ^ 31) % 2 ^ 32 - 2 ^ 31

/-- JavaScript truthiness of a `string | undefined` value:
`undefined` and the empty string are falsy. -/
def jsTruthy (o : Option String) : Bool :=
  match o with
  | none => false
  | some s => s ≠ ""

/-- JavaScript `a || b` on a `string | undefined` left operand:
returns `b` when `a` is falsy (`undefined` or `""`). -/
def jsOr (a : Option String) (b : String) : String :=
  match a with
  | none => b
  | some s => if s = "" then b else s

/-- Accumulate leading decimal digits (the digit-consuming loop of JS
`parseInt`). -/
def parseDigitsAux (acc : Nat) : List Char → Nat
  | [] => acc
  | c :: cs =>
    if c.isDigit then parseDigitsAux (acc * 10 + (c.toNat - 48)) cs
    else acc

/-- Leading decimal digits of a character list, as consumed by JS
`parseInt` after the optional sign; `none` when the first character is
not a digit. -/
def parseDigits : List Char → Option Nat
  | [] => none
  | c :: cs =>
    if c.isDigit then
      some (parseDigitsAux (c.toNat - 48) cs)
    else
      none

/-- JavaScript `parseInt(s)` (base 10): optional sign followed by leading
digits; `none` models `NaN`. -/
def jsParseInt (s : String) : Option Int :=
  match s.data with
  | '-' :: cs => (parseDigits cs).map (fun n => -(n : Int))
  | '+' :: cs => (parseDigits cs).map (fun n => (n : Int))
  | cs => (parseDigits cs).map (fun n => (n : Int))

/-- JavaScript number-to-string for an `Option Int` (none = `NaN`). -/
def jsNumToString (o : Option Int) : String :=
  match o with
  | none => "NaN"
  | some n => toString n

/-- JavaScript `s.split(":")[0]`: the prefix of `s` before its first
`':'` (the whole string when there is none). -/
def splitColonHead (s : String) : String :=
  String.mk (s.data.takeWhile (fun c => c ≠ ':'))

/-- JavaScript `s.replace(dashGlobalRegex, "_")`: every `'-'`
character replaced by `'_'`. -/
def replaceDashUnderscore (s : String) : String :=
  String.mk (s.data.map (fun c => if c = '-' then '_' else c))

/-- The UTF-16 code units of a string, as read by JS `charCodeAt`
(identical to the code points for the ASCII subdomain strings used
here; the hash is defined over arbitrary code-unit sequences). -/
def charCodes (s : String) : List Nat :=
  s.data.map Char.toNat

/-! ## The listener-rule priority hash (app-unit `index.ts`, listenerRule)

Source:
```
let hash = 0;
for (let i = 0; i < s.length; i++) {
  hash = ((hash << 5) - hash) + s.charCodeAt(i);
  hash = hash & hash;
}
return Math.abs(hash % 49000) + 1000; // Range 1000-50000
```
-/

/-- One iteration of the source's rolling-hash loop:
`hash = ((hash << 5) - hash) + c; hash = hash & hash`.
`hash << 5` coerces through `ToInt32` (yielding `toInt32 (h * 32)`), the
subtraction and addition are exact in double precision at these
magnitudes, and `hash & hash` applies `ToInt32` to the result. -/
def jsHashStep (h : Int) (c : Nat) : Int :=
  toInt32 (toInt32 (h * 32) - h + c)

/-- The rolling hash of the source over a sequence of character codes. -/
def jsHash (codes : List Nat) : Int :=
  codes.foldl jsHashStep 0

/-- The listener-rule priority computed by the app unit:
`Math.abs(hash % 49000) + 1000`.  JS `%` truncates toward zero
(`Int.tmod`), and `Math.abs` is `Int.natAbs`. -/
def listenerRulePriority (codes : List Nat) : Nat :=
  (Int.tmod (jsHash codes) 49000).natAbs + 1000

/-- The spec's reference rolling-hash step: `hash = hash*31 + charCode`,
wrapping on 32-bit signed overflow at each step. -/
def specHashStep (h : Int) (c : Nat) : Int :=
  toInt32 (h * 31 + c)

/-- The spec's reference rolling hash. -/
def specHash (codes : List Nat) : Int :=
  codes.foldl specHashStep 0

/-- The spec's reference priority map:
`abs(hash) % (upperBound - lowerBound) + lowerBound`. -/
def specPriority (codes : List Nat) (lowerBound upperBound : Nat) : Nat :=
  (specHash codes).natAbs % (upperBound - lowerBound) + lowerBound

/-! ### Hash lemmas -/

theorem toInt32_lb (x : Int) : -(2 ^ 31) ≤ toInt32 x := by
  unfold toInt32; omega

theorem toInt32_ub (x : Int) : toInt32 x < 2 ^ 31 := by
  unfold toInt32; omega

theorem toInt32_congr {x y : Int} (h : x % 2 ^ 32 = y % 2 ^ 32) :
    toInt32 x = toInt32 y := by
  unfold toInt32; omega

theorem jsHashStep_eq_specHashStep (h : Int) (c : Nat) :
    jsHashStep h c = specHashStep h c := by
  unfold jsHashStep specHashStep toInt32
  omega

theorem jsHash_eq_specHash (codes : List Nat) :
    jsHash codes = specHash codes := by
  unfold jsHash specHash
  have hstep : jsHashStep = specHashStep := by
    funext h c; exact jsHashStep_eq_specHashStep h c
  rw [hstep]

theorem natAbs_tmod (a : Int) (n : Nat) :
    (Int.tmod a (n : Int)).natAbs = a.natAbs % n := by
  cases a with
  | ofNat m =>
    rfl
  | negSucc m =>
    show (-(Int.ofNat ((m + 1) % n))).natAbs = (m + 1) % n
    rw [Int.natAbs_neg]
    rfl

theorem natAbs_tmod_49000 (a : Int) :
    (Int.tmod a 49000).natAbs = a.natAbs % 49000 := by
  simpa using natAbs_tmod a 49000

theorem listenerRulePriority_eq_specPriority (codes : List Nat) :
    listenerRulePriority codes = specPriority codes 1000 50000 := by
  unfold listenerRulePriority specPriority
  rw [jsHash_eq_specHash, natAbs_tmod_49000]

theorem listenerRulePriority_bounds (codes : List Nat) :
    1000 ≤ listenerRulePriority codes ∧ listenerRulePriority codes < 50000 := by
  unfold listenerRulePriority
  have h : (Int.tmod (jsHash codes) 49000).natAbs < 49000 := by
    rw [natAbs_tmod_49000]
    exact Nat.mod_lt _ (by norm_num)
  omega

/-! ## Configuration surface (app-unit `index.ts`, Configuration section)

Pulumi's per-stack configuration is a flat map of string keys to string
values.  `config.require` throws when the key is absent;
`config.get` returns `string | undefined`;
`config.getBoolean` returns `boolean | undefined` and throws when a
present value is neither `"true"` nor `"false"`.
-/

/-- A Pulumi stack configuration: a flat mapping of string keys to
string values. -/
abbrev ConfigMap := List (String × String)

instance {ε α : Type} [DecidableEq ε] [DecidableEq α] :
    DecidableEq (Except ε α) := fun x y =>
  match x, y with
  | Except.ok a, Except.ok b =>
    if h : a = b then isTrue (by rw [h]) else isFalse (by simp [h])
  | Except.error a, Except.error b =>
    if h : a = b then isTrue (by rw [h]) else isFalse (by simp [h])
  | Except.ok _, Except.error _ => isFalse (by simp)
  | Except.error _, Except.ok _ => isFalse (by simp)

/-- Errors raised while reading configuration (before any resource
declaration is constructed). -/
inductive ConfigError where
  | missingKey (key : String)
  | notABoolean (key : String)
deriving Repr, DecidableEq

/-- `config.get(key)`: the value at `key`, or `undefined`. -/
def configGet (m : ConfigMap) (key : String) : Option String :=
  (m.find? (fun kv => kv.1 = key)).map Prod.snd

/-- `config.require(key)`: the value at `key`; throws
`ConfigError.missingKey` when absent. -/
def configRequire (m : ConfigMap) (key : String) : Except ConfigError String :=
  match configGet m key with
  | some v => Except.ok v
  | none => Except.error (ConfigError.missingKey key)

/-- `config.getBoolean(key)`: `undefined` when absent, the parsed
boolean when `"true"`/`"false"`, an error otherwise. -/
def configGetBoolean (m : ConfigMap) (key : String) :
    Except ConfigError (Option Bool) :=
  match configGet m key with
  | none => Except.ok none
  | some "true" => Except.ok (some true)
  | some "false" => Except.ok (some false)
  | some _ => Except.error (ConfigError.notABoolean key)

/-- The app-unit configuration after the Configuration section of the
app `index.ts` has run.  Numeric fields are `Option Int` with `none`
standing for JS `NaN` (possible when a supplied value fails
`parseInt`). -/
structure AppConfig where
  appName : String
  subdomain : String
  platformStackName : String
  cpu : Option Int
  memory : Option Int
  desiredCount : Option Int
  containerPort : Option Int
  useFargateSpot : Bool
  enableScheduledScaling : Bool
  scaleUpHour : Option Int
  scaleDownHour : Option Int
  scheduleTimezone : String
deriving Repr, DecidableEq

/-- The Configuration section of the app `index.ts`, statement by
statement:

```
const appName = config.require("appName");
const subdomain = config.require("subdomain");
const platformStackName = config.require("platformStack");
const cpu = parseInt(config.get("cpu") || "256");
const memory = parseInt(config.get("memory") || "512");
const desiredCount = parseInt(config.get("desiredCount") || "1");
const containerPort = parseInt(config.get("containerPort") || "3000");
const useFargateSpot = config.getBoolean("useFargateSpot") ?? true;
const enableScheduledScaling = config.getBoolean("enableScheduledScaling") ?? false;
const scaleUpHour = parseInt(config.get("scaleUpHour") || "6");
const scaleDownHour = parseInt(config.get("scaleDownHour") || "22");
const scheduleTimezone = config.get("scheduleTimezone") || "America/Denver";
```
-/
def parseAppConfig (m : ConfigMap) : Except ConfigError AppConfig := do
  let appName ← configRequire m "appName"
  let subdomain ← configRequire m "subdomain"
  let platformStackName ← configRequire m "platformStack"
  let cpu := jsParseInt (jsOr (configGet m "cpu") "256")
  let memory := jsParseInt (jsOr (configGet m "memory") "512")
  let desiredCount := jsParseInt (jsOr (configGet m "desiredCount") "1")
  let containerPort := jsParseInt (jsOr (configGet m "containerPort") "3000")
  let useFargateSpot := (← configGetBoolean m "useFargateSpot").getD true
  let enableScheduledScaling := (← configGetBoolean m "enableScheduledScaling").getD false
  let scaleUpHour := jsParseInt (jsOr (configGet m "scaleUpHour") "6")
  let scaleDownHour := jsParseInt (jsOr (configGet m "scaleDownHour") "22")
  let scheduleTimezone := jsOr (configGet m "scheduleTimezone") "America/Denver"
  return {
    appName, subdomain, platformStackName, cpu, memory, desiredCount,
    containerPort, useFargateSpot, enableScheduledScaling,
    scaleUpHour, scaleDownHour, scheduleTimezone
  }

/-! ## Resource declarations (the data model)

Provider-computed fields (ARNs, ids, DNS names, endpoints) are not
known at graph-build time; they are modelled symbolically, injectively
derived from the owning declaration's logical name.
-/

/-- Symbolic ARN of the resource with the given logical name. -/
def arnOf (logicalName : String) : String :=
  "arn:" ++ logicalName

/-- Symbolic provider id of the resource with the given logical name. -/
def idOf (logicalName : String) : String :=
  "id:" ++ logicalName

/-- Symbolic DNS name of the resource with the given logical name. -/
def dnsNameOf (logicalName : String) : String :=
  "dns:" ++ logicalName

/-- Symbolic repository/endpoint URL of the resource with the given
logical name. -/
def urlOf (logicalName : String) : String :=
  "url:" ++ logicalName

/-- A container environment variable (`{name, value}`). -/
structure EnvVar where
  name : String
  value : String
deriving Repr, DecidableEq

/-- A container secret reference (`{name, valueFrom}`). -/
structure SecretRef where
  name : String
  valueFrom : String
deriving Repr, DecidableEq

/-- One ECS capacity-provider strategy entry. -/
structure CapacityProviderStrategy where
  capacityProvider : String
  weight : Nat
  base : Nat
deriving Repr, DecidableEq

/-- A container port mapping. -/
structure PortMapping where
  containerPort : Option Int
  protocol : String
deriving Repr, DecidableEq

/-- The `awslogs` log configuration of a container
(`awslogs-group`, `awslogs-region`, `awslogs-stream-prefix`). -/
structure LogConfiguration where
  logGroup : Option String
  region : Option String
  streamPfx : String
deriving Repr, DecidableEq

/-- A container health check. -/
structure HealthCheck where
  command : String
  interval : Nat
  timeout : Nat
  retries : Nat
  startPeriod : Nat
deriving Repr, DecidableEq

/-- One entry of an ECS task definition's `containerDefinitions`. -/
structure ContainerDef where
  name : String
  image : String
  essential : Bool
  portMappings : List PortMapping
  environment : List EnvVar
  secrets : Option (List SecretRef)
  logConfiguration : LogConfiguration
  healthCheck : Option HealthCheck
deriving Repr, DecidableEq

/-- A resource declaration: a named, typed request to create one
infrastructure object, carrying the inputs relevant to the composition
logic.  The first argument of every constructor is the logical name. -/
inductive Decl where
  | ecrRepository (logicalName : String) (repoName : String) (scanOnPush : Bool)
  | ecrLifecyclePolicy (logicalName : String) (keepCount : Nat)
  | securityGroup (logicalName : String)
  | targetGroup (logicalName : String) (port : Option Int) (healthCheckPath : String)
  | listenerRule (logicalName : String) (listenerArn : Option String)
      (priority : Nat) (hostHeader : String)
  | taskDefinition (logicalName : String) (family : String) (cpu memory : String)
      (containers : List ContainerDef)
  | ecsService (logicalName : String) (serviceName : String)
      (desiredCount : Option Int) (launchType : Option String)
      (capacityProviderStrategies : Option (List CapacityProviderStrategy))
  | appautoscalingTarget (logicalName : String) (minCapacity maxCapacity : Option Int)
  | appautoscalingScheduledAction (logicalName : String) (schedule timezone : String)
      (minCapacity maxCapacity : Option Int)
  | vpc (logicalName : String) (cidrBlock : String)
  | internetGateway (logicalName : String)
  | subnet (logicalName : String) (cidrBlock : String) (mapPublicIpOnLaunch : Bool)
  | routeTable (logicalName : String)
  | routeTableAssociation (logicalName : String)
  | loadBalancer (logicalName : String)
  | listener (logicalName : String) (port : Nat) (protocol : String)
  | ecsCluster (logicalName : String) (clusterName : String)
  | clusterCapacityProviders (logicalName : String)
      (defaults : List CapacityProviderStrategy)
  | iamRole (logicalName : String)
  | iamRolePolicyAttachment (logicalName : String)
  | iamRolePolicy (logicalName : String)
  | logGroup (logicalName : String) (groupName : String) (retentionInDays : Nat)
  | rdsSubnetGroup (logicalName : String)
  | randomPassword (logicalName : String) (length : Nat)
  | secretsManagerSecret (logicalName : String) (secretName : String)
  | secretsManagerSecretVersion (logicalName : String)
  | rdsInstance (logicalName : String) (identifier dbName username : String)
deriving Repr, DecidableEq

/-- The logical name of a declaration (unique within its graph). -/
def Decl.logicalName : Decl → String
  | ecrRepository n .. => n
  | ecrLifecyclePolicy n .. => n
  | securityGroup n => n
  | targetGroup n .. => n
  | listenerRule n .. => n
  | taskDefinition n .. => n
  | ecsService n .. => n
  | appautoscalingTarget n .. => n
  | appautoscalingScheduledAction n .. => n
  | vpc n .. => n
  | internetGateway n => n
  | subnet n .. => n
  | routeTable n => n
  | routeTableAssociation n => n
  | loadBalancer n => n
  | listener n .. => n
  | ecsCluster n .. => n
  | clusterCapacityProviders n .. => n
  | iamRole n => n
  | iamRolePolicyAttachment n => n
  | iamRolePolicy n => n
  | logGroup n .. => n
  | rdsSubnetGroup n => n
  | randomPassword n .. => n
  | secretsManagerSecret n .. => n
  | secretsManagerSecretVersion n => n
  | rdsInstance n .. => n

/-- Whether a declaration belongs to the scheduled-scaling subsystem
(an Application Auto Scaling target or scheduled action). -/
def Decl.isScheduledScaling : Decl → Bool
  | appautoscalingTarget .. => true
  | appautoscalingScheduledAction .. => true
  | _ => false

/-- Whether a declaration is an ECS service. -/
def Decl.isEcsService : Decl → Bool
  | ecsService .. => true
  | _ => false

/-- Whether a declaration is an ECS task definition. -/
def Decl.isTaskDefinition : Decl → Bool
  | taskDefinition .. => true
  | _ => false

/-! ## Cross-stack output resolution -/

/-- The last-deployment output snapshot of a referenced stack: the
named values produced by its last successful deployment. -/
abbrev Snapshot := List (String × String)

/-- Modelled from the spec: `StackReference.getOutput` — the engine's
cross-stack output resolver (`platform/index.ts` exports are consumed
by app units through `pulumi.StackReference`, whose implementation is
external to this repository).  Per §4.4 it returns the bound value
when `bindingName` exists in the referenced snapshot and an explicit
absent marker (`none`) otherwise; it is total and never throws. -/
def resolveOutput (snap : Snapshot) (bindingName : String) : Option String :=
  (snap.find? (fun kv => kv.1 = bindingName)).map Prod.snd

/-- JS template interpolation of a `string | undefined` value
(`pulumi.interpolate` stringifies `undefined` as `"undefined"`). -/
def jsTemplate (o : Option String) : String :=
  o.getD "undefined"

/-! ## App-unit graph (app-unit `index.ts`) -/

/-- The base container environment of the app `index.ts`:
```
const containerEnv = [
  { name: "NODE_ENV", value: "production" },
  { name: "PORT", value: containerPort.toString() },
];
```
-/
def containerEnv (containerPort : Option Int) : List EnvVar :=
  [⟨"NODE_ENV", "production"⟩, ⟨"PORT", jsNumToString containerPort⟩]

/-- The `containerDefinitions` callback of the app task definition:
extends the base environment with `DB_HOST`/`DB_PORT`/`DB_NAME`/
`DB_USER` when the resolved `dbEndpoint` is truthy, adds the
`DB_PASSWORD` secret when the resolved `dbPasswordSecretArn` is
truthy, and leaves the `secrets` field `undefined` when no secret was
pushed (`secrets.length > 0 ? secrets : undefined`). -/
def containerDefinitions (appName : String) (containerPort : Option Int)
    (repoUrl : String) (logGroup awsRegion : Option String)
    (dbHost dbSecretArn : Option String) : List ContainerDef :=
  let env := containerEnv containerPort ++
    (if jsTruthy dbHost then
      [⟨"DB_HOST", splitColonHead (dbHost.getD "")⟩,
       ⟨"DB_PORT", "5432"⟩,
       ⟨"DB_NAME", replaceDashUnderscore appName⟩,
       ⟨"DB_USER", "portfolio_admin"⟩]
     else [])
  let secrets : List SecretRef :=
    if jsTruthy dbSecretArn then [⟨"DB_PASSWORD", dbSecretArn.getD ""⟩] else []
  [{ name := appName,
     image := repoUrl ++ ":latest",
     essential := true,
     portMappings := [⟨containerPort, "tcp"⟩],
     environment := env,
     secrets := if secrets.length > 0 then some secrets else none,
     logConfiguration := ⟨logGroup, awsRegion, appName⟩,
     healthCheck := some ⟨"curl -f http://localhost:" ++ jsNumToString containerPort
       ++ "/health || exit 1", 30, 5, 3, 60⟩ }]

/-- The scheduled-scaling block of the app `index.ts` (the body of
`if (enableScheduledScaling) { ... }`): an Application Auto Scaling
target plus a morning scale-up and an evening scale-down action. -/
def scheduledScalingDecls (cfg : AppConfig) : List Decl :=
  [Decl.appautoscalingTarget (cfg.appName ++ "-scaling-target")
     (some 0) cfg.desiredCount,
   Decl.appautoscalingScheduledAction (cfg.appName ++ "-scale-up")
     ("cron(0 " ++ jsNumToString cfg.scaleUpHour ++ " * * ? *)")
     cfg.scheduleTimezone cfg.desiredCount cfg.desiredCount,
   Decl.appautoscalingScheduledAction (cfg.appName ++ "-scale-down")
     ("cron(0 " ++ jsNumToString cfg.scaleDownHour ++ " * * ? *)")
     cfg.scheduleTimezone (some 0) (some 0)]

/-- The declarations of an app-unit graph, in source order, with the
scheduled-scaling subsystem builder passed as a parameter (it is only
invoked when `enableScheduledScaling` is true). -/
def buildAppDeclsWith (sched : AppConfig → List Decl)
    (cfg : AppConfig) (snap : Snapshot) : List Decl :=
  [Decl.ecrRepository (cfg.appName ++ "-repo") ("portfolio/" ++ cfg.appName) true,
   Decl.ecrLifecyclePolicy (cfg.appName ++ "-lifecycle") 10,
   Decl.securityGroup (cfg.appName ++ "-sg"),
   Decl.targetGroup (cfg.appName ++ "-tg") cfg.containerPort "/health",
   Decl.listenerRule (cfg.appName ++ "-rule")
     (resolveOutput snap "httpsListenerArn")
     (listenerRulePriority (charCodes cfg.subdomain))
     (cfg.subdomain ++ "." ++ jsTemplate (resolveOutput snap "domainName")),
   Decl.taskDefinition (cfg.appName ++ "-task") cfg.appName
     (jsNumToString cfg.cpu) (jsNumToString cfg.memory)
     (containerDefinitions cfg.appName cfg.containerPort
       (urlOf (cfg.appName ++ "-repo"))
       (resolveOutput snap "logGroupName")
       (resolveOutput snap "region")
       (resolveOutput snap "dbEndpoint")
       (resolveOutput snap "dbPasswordSecretArn")),
   Decl.ecsService (cfg.appName ++ "-service") cfg.appName
     cfg.desiredCount
     (if cfg.useFargateSpot then none else some "FARGATE")
     (if cfg.useFargateSpot then
        some [⟨"FARGATE_SPOT", 1, 0⟩, ⟨"FARGATE", 0, 1⟩]
      else none)]
  ++ (if cfg.enableScheduledScaling then sched cfg else [])

/-- The declarations of an app-unit graph (the scheduled-scaling block
as written in the source). -/
def buildAppDecls (cfg : AppConfig) (snap : Snapshot) : List Decl :=
  buildAppDeclsWith scheduledScalingDecls cfg snap

/-- An app-unit run: read configuration, then build the declaration
list.  A configuration error fails the run before any declaration is
built. -/
def buildApp (m : ConfigMap) (snap : Snapshot) : Except ConfigError (List Decl) :=
  (parseAppConfig m).map (fun cfg => buildAppDecls cfg snap)

/-- The exported outputs of an app unit, in source order:
```
export const appUrl = pulumi.interpolate`https://${subdomain}.${domainName}`;
export const albUrl = pulumi.interpolate`http://${albDnsName}`;
export const ecrRepositoryUrl = ecrRepo.repositoryUrl;
export const serviceName = service.name;
export const serviceArn = service.id;
```
-/
def appOutputs (cfg : AppConfig) (snap : Snapshot) : List (String × String) :=
  [("appUrl", "https://" ++ cfg.subdomain ++ "."
      ++ jsTemplate (resolveOutput snap "domainName")),
   ("albUrl", "http://" ++ jsTemplate (resolveOutput snap "albDnsName")),
   ("ecrRepositoryUrl", urlOf (cfg.appName ++ "-repo")),
   ("serviceName", cfg.appName),
   ("serviceArn", idOf (cfg.appName ++ "-service"))]

/-- The capacity-provider strategies of the first ECS service in a
declaration list. -/
def serviceStrategiesOf (ds : List Decl) : Option (List CapacityProviderStrategy) :=
  match ds.find? Decl.isEcsService with
  | some (Decl.ecsService _ _ _ _ strategies) => strategies
  | _ => none

/-- The containers of the first ECS task definition in a declaration
list. -/
def taskContainersOf (ds : List Decl) : List ContainerDef :=
  match ds.find? Decl.isTaskDefinition with
  | some (Decl.taskDefinition _ _ _ _ containers) => containers
  | _ => []

/-! ## The ALB subsystem (`platform/alb.ts`, `createAlb`) -/

/-- Inputs of `createAlb` (tags omitted: they do not affect
composition). -/
structure AlbInputs where
  vpcId : String
  publicSubnetIds : List String
  certificateArn : Option String
deriving Repr, DecidableEq

/-- The `AlbOutputs` interface of `platform/alb.ts`. -/
structure AlbOutputs where
  albArn : String
  albDnsName : String
  albZoneId : String
  httpListenerArn : String
  httpsListenerArn : String
  albSecurityGroupId : String
deriving Repr, DecidableEq

/-- The declarations made by `createAlb` together with its returned
outputs. -/
structure AlbResult where
  decls : List Decl
  outputs : AlbOutputs
deriving Repr, DecidableEq

/-- `createAlb`: ALB security group, load balancer, HTTP (port-80)
listener, and — only when `certificateArn` was supplied — an HTTPS
(port-443) listener.  The returned `httpsListenerArn` is
`httpsListener?.arn || httpListener.arn`. -/
def createAlb (name : String) (inputs : AlbInputs) : AlbResult :=
  let httpsListener : Option Decl :=
    if inputs.certificateArn.isSome then
      some (Decl.listener (name ++ "-https-listener") 443 "HTTPS")
    else
      none
  { decls :=
      [Decl.securityGroup (name ++ "-alb-sg"),
       Decl.loadBalancer (name ++ "-alb"),
       Decl.listener (name ++ "-http-listener") 80 "HTTP"]
      ++ httpsListener.toList,
    outputs :=
      { albArn := arnOf (name ++ "-alb"),
        albDnsName := dnsNameOf (name ++ "-alb"),
        albZoneId := idOf (name ++ "-alb"),
        httpListenerArn := arnOf (name ++ "-http-listener"),
        httpsListenerArn :=
          jsOr (httpsListener.map (fun d => arnOf d.logicalName))
            (arnOf (name ++ "-http-listener")),
        albSecurityGroupId := idOf (name ++ "-alb-sg") } }

/-! ## The platform stack (`platform/index.ts` and the subsystems it
calls) -/

/-- The platform configuration after the Configuration section of
`platform/index.ts` has run. -/
structure PlatformConfig where
  environment : String
  domainName : String
  enableSharedDatabase : Bool
  dbInstanceClass : String
  dbAllocatedStorage : Option Int
deriving Repr, DecidableEq

/-- The Configuration section of `platform/index.ts`:
```
const environment = config.require("environment");
const domainName = config.require("domainName");
const enableSharedDatabase = config.getBoolean("enableSharedDatabase") ?? true;
const dbInstanceClass = config.get("dbInstanceClass") || "db.t4g.micro";
const dbAllocatedStorage = parseInt(config.get("dbAllocatedStorage") || "20");
```
-/
def parsePlatformConfig (m : ConfigMap) : Except ConfigError PlatformConfig := do
  let environment ← configRequire m "environment"
  let domainName ← configRequire m "domainName"
  let enableSharedDatabase := (← configGetBoolean m "enableSharedDatabase").getD true
  let dbInstanceClass := jsOr (configGet m "dbInstanceClass") "db.t4g.micro"
  let dbAllocatedStorage := jsParseInt (jsOr (configGet m "dbAllocatedStorage") "20")
  return { environment, domainName, enableSharedDatabase, dbInstanceClass,
           dbAllocatedStorage }

/-- `const name = `${projectName}-${environment}`` with
`projectName = "portfolio"`. -/
def platformName (cfg : PlatformConfig) : String :=
  "portfolio-" ++ cfg.environment

/-- The `VpcOutputs` interface of `platform/vpc.ts`. -/
structure VpcOutputs where
  vpcId : String
  publicSubnetIds : List String
  privateSubnetIds : List String
  defaultSecurityGroupId : String
deriving Repr, DecidableEq

/-- The declarations made by `createVpc` (`platform/vpc.ts`), in
source order: VPC, internet gateway, the public/private subnet pairs
for the two AZs, route table, the two route-table associations, and
the default security group. -/
def createVpcDecls (name : String) : List Decl :=
  [Decl.vpc (name ++ "-vpc") "10.0.0.0/16",
   Decl.internetGateway (name ++ "-igw"),
   Decl.subnet (name ++ "-public-0") "10.0.0.0/24" true,
   Decl.subnet (name ++ "-private-0") "10.0.10.0/24" false,
   Decl.subnet (name ++ "-public-1") "10.0.1.0/24" true,
   Decl.subnet (name ++ "-private-1") "10.0.11.0/24" false,
   Decl.routeTable (name ++ "-public-rt"),
   Decl.routeTableAssociation (name ++ "-public-rta-0"),
   Decl.routeTableAssociation (name ++ "-public-rta-1"),
   Decl.securityGroup (name ++ "-default-sg")]

/-- The outputs returned by `createVpc`. -/
def createVpcOutputs (name : String) : VpcOutputs :=
  { vpcId := idOf (name ++ "-vpc"),
    publicSubnetIds := [idOf (name ++ "-public-0"), idOf (name ++ "-public-1")],
    privateSubnetIds := [idOf (name ++ "-private-0"), idOf (name ++ "-private-1")],
    defaultSecurityGroupId := idOf (name ++ "-default-sg") }

/-- The `DnsOutputs` interface of `platform/dns.ts`. -/
structure DnsOutputs where
  hostedZoneId : String
  certificateArn : String
  domainName : String
deriving Repr, DecidableEq

/-- `createDns`: looks up the existing hosted zone and wildcard
certificate for the domain (data sources — no declarations are
added; the `name` parameter of the source is unused there too). -/
def createDns (_name : String) (domainName : String) : DnsOutputs :=
  { hostedZoneId := idOf ("zone:" ++ domainName),
    certificateArn := arnOf ("cert:" ++ domainName),
    domainName := domainName }

/-- The `EcsOutputs` interface of `platform/ecs.ts`. -/
structure EcsOutputs where
  clusterArn : String
  clusterName : String
  taskExecutionRoleArn : String
  taskRoleArn : String
deriving Repr, DecidableEq

/-- The declarations made by `createEcsCluster` (`platform/ecs.ts`):
cluster, cluster capacity providers, the task-execution role with its
policy attachment and secrets policy, and the task role with its
policy. -/
def createEcsClusterDecls (name : String) : List Decl :=
  [Decl.ecsCluster (name ++ "-cluster") (name ++ "-cluster"),
   Decl.clusterCapacityProviders (name ++ "-capacity-providers")
     [⟨"FARGATE_SPOT", 1, 0⟩, ⟨"FARGATE", 0, 1⟩],
   Decl.iamRole (name ++ "-task-execution-role"),
   Decl.iamRolePolicyAttachment (name ++ "-task-execution-policy"),
   Decl.iamRolePolicy (name ++ "-task-execution-secrets"),
   Decl.iamRole (name ++ "-task-role"),
   Decl.iamRolePolicy (name ++ "-task-policy")]

/-- The outputs returned by `createEcsCluster`. -/
def createEcsClusterOutputs (name : String) : EcsOutputs :=
  { clusterArn := arnOf (name ++ "-cluster"),
    clusterName := name ++ "-cluster",
    taskExecutionRoleArn := arnOf (name ++ "-task-execution-role"),
    taskRoleArn := arnOf (name ++ "-task-role") }

/-- The `RdsOutputs` interface of `platform/rds.ts`. -/
structure RdsOutputs where
  dbEndpoint : String
  dbPort : String
  dbName : String
  dbUsername : String
  dbPasswordSecretArn : String
  dbSecurityGroupId : String
deriving Repr, DecidableEq

/-- The declarations made by `createRds` (`platform/rds.ts`): subnet
group, database security group, random password, Secrets Manager
secret and secret version, and the PostgreSQL instance. -/
def createRdsDecls (name : String) : List Decl :=
  [Decl.rdsSubnetGroup (name ++ "-subnet-group"),
   Decl.securityGroup (name ++ "-db-sg"),
   Decl.randomPassword (name ++ "-db-password") 32,
   Decl.secretsManagerSecret (name ++ "-db-secret") (name ++ "/db-password"),
   Decl.secretsManagerSecretVersion (name ++ "-db-secret-version"),
   Decl.rdsInstance (name ++ "-postgres") (name ++ "-postgres")
     "portfolio" "portfolio_admin"]

/-- The outputs returned by `createRds` (`dbPort` is the constant
`5432`; `dbName`/`dbUsername` fall back to `"portfolio"` /
`"portfolio_admin"`, the configured values). -/
def createRdsOutputs (name : String) : RdsOutputs :=
  { dbEndpoint := urlOf (name ++ "-postgres"),
    dbPort := "5432",
    dbName := "portfolio",
    dbUsername := "portfolio_admin",
    dbPasswordSecretArn := arnOf (name ++ "-db-secret"),
    dbSecurityGroupId := idOf (name ++ "-db-sg") }

/-- The declarations of the platform graph, in source order (VPC, DNS
data lookups, ALB, ECS cluster, the gated database subsystem, log
group), with the database subsystem builder passed as a parameter (it
is only invoked when `enableSharedDatabase` is true). -/
def buildPlatformDeclsWith (rdsB : String → List Decl)
    (cfg : PlatformConfig) : List Decl :=
  let name := platformName cfg
  let dns := createDns name cfg.domainName
  createVpcDecls name
  ++ (createAlb name
       { vpcId := (createVpcOutputs name).vpcId,
         publicSubnetIds := (createVpcOutputs name).publicSubnetIds,
         certificateArn := some dns.certificateArn }).decls
  ++ createEcsClusterDecls name
  ++ (if cfg.enableSharedDatabase then rdsB name else [])
  ++ [Decl.logGroup (name ++ "-logs") ("/ecs/" ++ name) 14]

/-- The declarations of the platform graph (the database subsystem as
written in the source). -/
def buildPlatformDecls (cfg : PlatformConfig) : List Decl :=
  buildPlatformDeclsWith createRdsDecls cfg

/-- The exports of `platform/index.ts`, in source order.  Each
database export is `rds?.field`: `undefined` (`none`) when the
database subsystem was not included. -/
def platformExports (cfg : PlatformConfig) : List (String × Option String) :=
  let name := platformName cfg
  let vpc := createVpcOutputs name
  let dns := createDns name cfg.domainName
  let alb := (createAlb name
    { vpcId := vpc.vpcId,
      publicSubnetIds := vpc.publicSubnetIds,
      certificateArn := some dns.certificateArn }).outputs
  let ecs := createEcsClusterOutputs name
  let rds : Option RdsOutputs :=
    if cfg.enableSharedDatabase then some (createRdsOutputs name) else none
  [("vpcId", some vpc.vpcId),
   ("publicSubnetIds", some (String.intercalate "," vpc.publicSubnetIds)),
   ("privateSubnetIds", some (String.intercalate "," vpc.privateSubnetIds)),
   ("defaultSecurityGroupId", some vpc.defaultSecurityGroupId),
   ("albArn", some alb.albArn),
   ("albDnsName", some alb.albDnsName),
   ("albZoneId", some alb.albZoneId),
   ("httpListenerArn", some alb.httpListenerArn),
   ("httpsListenerArn", some alb.httpsListenerArn),
   ("albSecurityGroupId", some alb.albSecurityGroupId),
   ("hostedZoneId", some dns.hostedZoneId),
   ("certificateArn", some dns.certificateArn),
   ("clusterArn", some ecs.clusterArn),
   ("clusterName", some ecs.clusterName),
   ("taskExecutionRoleArn", some ecs.taskExecutionRoleArn),
   ("taskRoleArn", some ecs.taskRoleArn),
   ("dbEndpoint", rds.map RdsOutputs.dbEndpoint),
   ("dbPort", rds.map RdsOutputs.dbPort),
   ("dbName", rds.map RdsOutputs.dbName),
   ("dbUsername", rds.map RdsOutputs.dbUsername),
   ("dbPasswordSecretArn", rds.map RdsOutputs.dbPasswordSecretArn),
   ("dbSecurityGroupId", rds.map RdsOutputs.dbSecurityGroupId),
   ("logGroupName", some ("/ecs/" ++ name)),
   ("environment", some cfg.environment),
   ("domainName", some cfg.domainName),
   ("region", some "aws-region")]

/-- Modelled from the spec: the engine's serialization of a graph's
exports into its deployment snapshot (the engine is external to this
repository).  Per §6, `?`-marked fields "are absent unless the
optional database subsystem was included": an export whose value is
`undefined` is dropped from the snapshot, not stored with a disabled
value. -/
def snapshotOfExports (exports : List (String × Option String)) : Snapshot :=
  exports.filterMap (fun kv => kv.2.map (fun v => (kv.1, v)))

/-- The deployment snapshot of the platform graph. -/
def platformSnapshot (cfg : PlatformConfig) : Snapshot :=
  snapshotOfExports (platformExports cfg)

/-! ## Shared concrete inputs for witnesses -/

/-- The app configuration of the spec's end-to-end scenario
(`appName="my-app", containerPort=3000, useFargateSpot=true,
enableScheduledScaling=false`), with every optional key at its
default. -/
def demoAppConfig : AppConfig :=
  { appName := "my-app"
    subdomain := "my-app"
    platformStackName := "cwnelson/portfolio-platform/dev"
    cpu := some 256
    memory := some 512
    desiredCount := some 1
    containerPort := some 3000
    useFargateSpot := true
    enableScheduledScaling := false
    scaleUpHour := some 6
    scaleDownHour := some 22
    scheduleTimezone := "America/Denver" }

/-- A config map supplying only the three required keys. -/
def demoConfigMap : ConfigMap :=
  [("appName", "my-app"), ("subdomain", "my-app"),
   ("platformStack", "cwnelson/portfolio-platform/dev")]

/-- A config map supplying the three required keys and one optional
key (`cpu`), leaving the other optional keys to their defaults. -/
def demoMixedConfigMap : ConfigMap :=
  [("appName", "my-app"), ("subdomain", "my-app"),
   ("platformStack", "cwnelson/portfolio-platform/dev"), ("cpu", "512")]

/-- The parse of `demoMixedConfigMap`: `cpu` carries the supplied 512,
every other optional field its default. -/
def demoMixedAppConfig : AppConfig :=
  { demoAppConfig with cpu := some 512 }

/-- A platform configuration with the shared-database gate off. -/
def demoPlatformConfigNoDb : PlatformConfig :=
  { environment := "dev"
    domainName := "cwnel.com"
    enableSharedDatabase := false
    dbInstanceClass := "db.t4g.micro"
    dbAllocatedStorage := some 20 }

/-! ## Claims -/

/-- C1: for every subdomain string, the listener-rule priority computed
by the app unit equals the spec's reference algorithm (rolling hash
`hash = hash*31 + charCode` wrapping on 32-bit signed overflow at each
step, then `abs(hash) % (upperBound - lowerBound) + lowerBound` with
`lowerBound = 1000`, `upperBound = 50000`), and the result always
satisfies `1000 ≤ priority < 50000`. -/
theorem priority_matches_spec_and_bounds (s : String) :
    listenerRulePriority (charCodes s) = specPriority (charCodes s) 1000 50000
    ∧ 1000 ≤ listenerRulePriority (charCodes s)
    ∧ listenerRulePriority (charCodes s) < 50000 :=
  ⟨listenerRulePriority_eq_specPriority (charCodes s),
   listenerRulePriority_bounds (charCodes s)⟩

/-- C2: the priority computation is a pure deterministic function of
its string input: equal strings (in particular, the same string in two
separate runs) yield equal priorities, lying in `[1000, 50000)`. -/
theorem priority_deterministic (s1 s2 : String) (h : s1 = s2) :
    listenerRulePriority (charCodes s1) = listenerRulePriority (charCodes s2)
    ∧ 1000 ≤ listenerRulePriority (charCodes s1)
    ∧ listenerRulePriority (charCodes s1) < 50000 :=
  ⟨h ▸ rfl, listenerRulePriority_bounds (charCodes s1)⟩

set_option maxRecDepth 8192 in
/-- C2 witness: `priority("checkout-api", 1000, 50000)` computed twice
yields the same integer both times, that integer lies in
`[1000, 50000)`, and it evaluates concretely to `6851`. -/
theorem priority_deterministic_witness :
    ("checkout-api" : String) = "checkout-api"
    ∧ (listenerRulePriority (charCodes "checkout-api")
         = listenerRulePriority (charCodes "checkout-api")
       ∧ 1000 ≤ listenerRulePriority (charCodes "checkout-api")
       ∧ listenerRulePriority (charCodes "checkout-api") < 50000)
    ∧ listenerRulePriority (charCodes "checkout-api") = 6851 :=
  ⟨rfl, priority_deterministic "checkout-api" "checkout-api" rfl, by decide⟩

/-- C3: for every app-unit graph built with
`enableScheduledScaling = false` and `useFargateSpot = true`, the
scheduled-scaling builder is never invoked (the declaration list does
not depend on it), the finalized declaration list contains no
scheduled-scaling declarations, and the ECS service's
capacity-provider strategy contains a `FARGATE_SPOT` entry with
`weight > 0` and a `FARGATE` on-demand entry with `base = 1`. -/
theorem spot_no_scheduled_scaling (cfg : AppConfig) (snap : Snapshot)
    (hs : cfg.enableScheduledScaling = false)
    (hf : cfg.useFargateSpot = true) :
    (∀ f, buildAppDeclsWith f cfg snap = buildAppDeclsWith (fun _ => []) cfg snap)
    ∧ (∀ d ∈ buildAppDecls cfg snap, d.isScheduledScaling = false)
    ∧ (∃ strategies,
        serviceStrategiesOf (buildAppDecls cfg snap) = some strategies
        ∧ (∃ s ∈ strategies, s.capacityProvider = "FARGATE_SPOT" ∧ 0 < s.weight)
        ∧ (∃ s ∈ strategies, s.capacityProvider = "FARGATE" ∧ s.base = 1)) := by
  refine ⟨?_, ?_, ?_⟩
  · intro f
    simp [buildAppDeclsWith, hs]
  · intro d hd
    simp [buildAppDecls, buildAppDeclsWith, hs] at hd
    rcases hd with h | h | h | h | h | h | h <;> subst h <;> rfl
  · refine ⟨[⟨"FARGATE_SPOT", 1, 0⟩, ⟨"FARGATE", 0, 1⟩], ?_, ?_, ?_⟩
    · simp [buildAppDecls, buildAppDeclsWith, hs, hf, serviceStrategiesOf,
        Decl.isEcsService]
    · exact ⟨⟨"FARGATE_SPOT", 1, 0⟩, by simp, rfl, by norm_num⟩
    · exact ⟨⟨"FARGATE", 0, 1⟩, by simp, rfl, rfl⟩

/-- C3 witness: the end-to-end scenario at `demoAppConfig`
(`appName="my-app", containerPort=3000, useFargateSpot=true,
enableScheduledScaling=false`). -/
theorem spot_no_scheduled_scaling_witness :
    demoAppConfig.enableScheduledScaling = false
    ∧ demoAppConfig.useFargateSpot = true
    ∧ ((∀ f, buildAppDeclsWith f demoAppConfig []
          = buildAppDeclsWith (fun _ => []) demoAppConfig [])
       ∧ (∀ d ∈ buildAppDecls demoAppConfig [], d.isScheduledScaling = false)
       ∧ (∃ strategies,
           serviceStrategiesOf (buildAppDecls demoAppConfig []) = some strategies
           ∧ (∃ s ∈ strategies, s.capacityProvider = "FARGATE_SPOT" ∧ 0 < s.weight)
           ∧ (∃ s ∈ strategies, s.capacityProvider = "FARGATE" ∧ s.base = 1))) :=
  ⟨rfl, rfl, spot_no_scheduled_scaling demoAppConfig [] rfl rfl⟩

/-! ### Helper lemmas for the database gate -/

theorem string_append_left_cancel {s a b : String} (h : s ++ a = s ++ b) :
    a = b := by
  apply String.ext
  have hd := congrArg String.data h
  rw [String.data_append, String.data_append] at hd
  exact List.append_cancel_left hd

/-- The logical-name suffixes of the database subsystem's
declarations. -/
def dbNameSuffixes : List String :=
  ["-subnet-group", "-db-sg", "-db-password", "-db-secret",
   "-db-secret-version", "-postgres"]

/-- The logical-name suffixes of the non-database platform
declarations, in graph order. -/
def platformCoreNameSuffixes : List String :=
  ["-vpc", "-igw", "-public-0", "-private-0", "-public-1", "-private-1",
   "-public-rt", "-public-rta-0", "-public-rta-1", "-default-sg",
   "-alb-sg", "-alb", "-http-listener", "-https-listener",
   "-cluster", "-capacity-providers", "-task-execution-role",
   "-task-execution-policy", "-task-execution-secrets", "-task-role",
   "-task-policy", "-logs"]

theorem map_logicalName_rdsDecls (n : String) :
    (createRdsDecls n).map Decl.logicalName
      = dbNameSuffixes.map (fun s => n ++ s) := rfl

theorem map_logicalName_platformDecls (cfg : PlatformConfig)
    (h : cfg.enableSharedDatabase = false) :
    (buildPlatformDecls cfg).map Decl.logicalName
      = platformCoreNameSuffixes.map (fun s => platformName cfg ++ s) := by
  simp only [buildPlatformDecls, buildPlatformDeclsWith, h]
  rfl

theorem resolveOutput_eq_none_of_not_mem_keys {snap : Snapshot} {k : String}
    (h : k ∉ snap.map Prod.fst) : resolveOutput snap k = none := by
  unfold resolveOutput
  cases hf : snap.find? (fun kv => kv.1 = k) with
  | none => rfl
  | some kv =>
    have hp := List.find?_some hf
    have hm := List.mem_of_find?_eq_some hf
    have hk : kv.1 = k := by simpa using hp
    exact absurd (hk ▸ List.mem_map_of_mem Prod.fst hm) h

theorem platformSnapshot_keys_no_db (cfg : PlatformConfig)
    (h : cfg.enableSharedDatabase = false) :
    (platformSnapshot cfg).map Prod.fst
      = ["vpcId", "publicSubnetIds", "privateSubnetIds",
         "defaultSecurityGroupId", "albArn", "albDnsName", "albZoneId",
         "httpListenerArn", "httpsListenerArn", "albSecurityGroupId",
         "hostedZoneId", "certificateArn", "clusterArn", "clusterName",
         "taskExecutionRoleArn", "taskRoleArn", "logGroupName",
         "environment", "domainName", "region"] := by
  simp [platformSnapshot, platformExports, snapshotOfExports, h]

theorem db_bindings_absent (cfg : PlatformConfig)
    (h : cfg.enableSharedDatabase = false) :
    ∀ k ∈ ["dbEndpoint", "dbPort", "dbName", "dbUsername",
           "dbPasswordSecretArn", "dbSecurityGroupId"],
      resolveOutput (platformSnapshot cfg) k = none := by
  intro k hk
  apply resolveOutput_eq_none_of_not_mem_keys
  rw [platformSnapshot_keys_no_db cfg h]
  fin_cases hk <;> decide

/-- C4: when the platform graph is built with
`enableSharedDatabase = false`, the database builder is never invoked
(the declaration list does not depend on it), none of the database
subsystem's declarations exist in the final graph, and every database
output binding (`dbEndpoint`, `dbPort`, `dbName`, `dbUsername`,
`dbPasswordSecretArn`, `dbSecurityGroupId`) is absent from the
platform's output snapshot. -/
theorem database_gate_absent (cfg : PlatformConfig)
    (h : cfg.enableSharedDatabase = false) :
    (∀ f, buildPlatformDeclsWith f cfg = buildPlatformDeclsWith (fun _ => []) cfg)
    ∧ (∀ d ∈ createRdsDecls (platformName cfg), d ∉ buildPlatformDecls cfg)
    ∧ (∀ k ∈ ["dbEndpoint", "dbPort", "dbName", "dbUsername",
              "dbPasswordSecretArn", "dbSecurityGroupId"],
        resolveOutput (platformSnapshot cfg) k = none) := by
  refine ⟨?_, ?_, db_bindings_absent cfg h⟩
  · intro f
    simp [buildPlatformDeclsWith, h]
  · intro d hd hmem
    have h1 := List.mem_map_of_mem Decl.logicalName hd
    have h2 := List.mem_map_of_mem Decl.logicalName hmem
    rw [map_logicalName_rdsDecls] at h1
    rw [map_logicalName_platformDecls cfg h] at h2
    obtain ⟨s1, hs1, he1⟩ := List.mem_map.mp h1
    obtain ⟨s2, hs2, he2⟩ := List.mem_map.mp h2
    have hss : s1 = s2 := string_append_left_cancel (he1.trans he2.symm)
    subst hss
    have hdisj : ∀ s ∈ dbNameSuffixes, s ∉ platformCoreNameSuffixes := by decide
    exact hdisj s1 hs1 hs2

/-- C4 witness: the platform built at `demoPlatformConfigNoDb`
(database gate off). -/
theorem database_gate_absent_witness :
    demoPlatformConfigNoDb.enableSharedDatabase = false
    ∧ ((∀ f, buildPlatformDeclsWith f demoPlatformConfigNoDb
          = buildPlatformDeclsWith (fun _ => []) demoPlatformConfigNoDb)
       ∧ (∀ d ∈ createRdsDecls (platformName demoPlatformConfigNoDb),
           d ∉ buildPlatformDecls demoPlatformConfigNoDb)
       ∧ (∀ k ∈ ["dbEndpoint", "dbPort", "dbName", "dbUsername",
                 "dbPasswordSecretArn", "dbSecurityGroupId"],
           resolveOutput (platformSnapshot demoPlatformConfigNoDb) k = none)) :=
  ⟨rfl, database_gate_absent demoPlatformConfigNoDb rfl⟩

theorem taskContainersOf_buildAppDecls (cfg : AppConfig) (snap : Snapshot) :
    taskContainersOf (buildAppDecls cfg snap)
      = containerDefinitions cfg.appName cfg.containerPort
          (urlOf (cfg.appName ++ "-repo"))
          (resolveOutput snap "logGroupName") (resolveOutput snap "region")
          (resolveOutput snap "dbEndpoint")
          (resolveOutput snap "dbPasswordSecretArn") := by
  simp [taskContainersOf, buildAppDecls, buildAppDeclsWith,
    Decl.isTaskDefinition, List.find?]

/-- C5: resolving a binding produced inside a subsystem that was not
included in the referenced platform deployment returns the explicit
absent marker (the resolver is a total function, it cannot throw), and
an app-unit graph built against such a snapshot omits all `DB_*`
environment entries and the `DB_PASSWORD` secret from its container
definition. -/
theorem absent_db_binding_soft (pcfg : PlatformConfig) (cfg : AppConfig)
    (h : pcfg.enableSharedDatabase = false) :
    resolveOutput (platformSnapshot pcfg) "dbEndpoint" = none
    ∧ ∀ c ∈ taskContainersOf (buildAppDecls cfg (platformSnapshot pcfg)),
        (∀ e ∈ c.environment,
          e.name ≠ "DB_HOST" ∧ e.name ≠ "DB_PORT"
          ∧ e.name ≠ "DB_NAME" ∧ e.name ≠ "DB_USER")
        ∧ c.secrets = none := by
  have hend := db_bindings_absent pcfg h "dbEndpoint" (by simp)
  have hsec := db_bindings_absent pcfg h "dbPasswordSecretArn" (by simp)
  refine ⟨hend, ?_⟩
  intro c hc
  rw [taskContainersOf_buildAppDecls, hend, hsec] at hc
  simp [containerDefinitions, jsTruthy] at hc
  subst hc
  refine ⟨?_, rfl⟩
  intro e he
  simp [containerEnv] at he
  rcases he with he | he <;> subst he <;> simp

/-- C5 witness: the end-to-end scenario — resolve `dbEndpoint` from a
platform snapshot built without the database subsystem, and build the
demo app unit against it. -/
theorem absent_db_binding_soft_witness :
    demoPlatformConfigNoDb.enableSharedDatabase = false
    ∧ (resolveOutput (platformSnapshot demoPlatformConfigNoDb) "dbEndpoint" = none
       ∧ ∀ c ∈ taskContainersOf
           (buildAppDecls demoAppConfig (platformSnapshot demoPlatformConfigNoDb)),
           (∀ e ∈ c.environment,
             e.name ≠ "DB_HOST" ∧ e.name ≠ "DB_PORT"
             ∧ e.name ≠ "DB_NAME" ∧ e.name ≠ "DB_USER")
           ∧ c.secrets = none) :=
  ⟨rfl, absent_db_binding_soft demoPlatformConfigNoDb demoAppConfig rfl⟩

/-- Modelled from the spec: the spec documents `scheduleTimezone:
default "UTC-equivalent"`.  A timezone string is UTC-equivalent when
it denotes UTC (zero offset). -/
def isUTCEquivalentTimezone (tz : String) : Bool :=
  tz ∈ ["UTC", "Etc/UTC", "Etc/Universal", "Universal", "Zulu", "GMT",
        "Etc/GMT", "GMT0", "UTC+0", "UTC-0", "+00:00", "Z", "utc"]

set_option maxRecDepth 8192 in
/-- C6 counterexample: parsing a configuration that supplies only the
required keys yields `scheduleTimezone = "America/Denver"` (US
Mountain Time, UTC-7/UTC-6), not a UTC-equivalent default as the
claim states. -/
theorem schedule_timezone_counterexample :
    (parseAppConfig demoConfigMap).toOption.map AppConfig.scheduleTimezone
      = some "America/Denver"
    ∧ isUTCEquivalentTimezone "America/Denver" = false := by
  decide

/-- C6 (amended): for every app-unit configuration that parses, each
optional key that is not supplied takes exactly its code default —
cpu 256, memory 512, desiredCount 1, containerPort 3000,
useFargateSpot true, enableScheduledScaling false, scaleUpHour 6,
scaleDownHour 22, and scheduleTimezone `"America/Denver"` (the
documented defaults, except that the timezone default is US Mountain
Time rather than a UTC-equivalent).  Each key is defaulted
independently, so mixed configurations are covered. -/
theorem optional_config_defaults (m : ConfigMap) (cfg : AppConfig)
    (hparse : parseAppConfig m = Except.ok cfg) :
    (configGet m "cpu" = none → cfg.cpu = some 256)
    ∧ (configGet m "memory" = none → cfg.memory = some 512)
    ∧ (configGet m "desiredCount" = none → cfg.desiredCount = some 1)
    ∧ (configGet m "containerPort" = none → cfg.containerPort = some 3000)
    ∧ (configGet m "useFargateSpot" = none → cfg.useFargateSpot = true)
    ∧ (configGet m "enableScheduledScaling" = none →
        cfg.enableScheduledScaling = false)
    ∧ (configGet m "scaleUpHour" = none → cfg.scaleUpHour = some 6)
    ∧ (configGet m "scaleDownHour" = none → cfg.scaleDownHour = some 22)
    ∧ (configGet m "scheduleTimezone" = none →
        cfg.scheduleTimezone = "America/Denver") := by
  unfold parseAppConfig at hparse
  cases h1 : configRequire m "appName" with
  | error e => rw [h1] at hparse; simp [Bind.bind, Except.bind] at hparse
  | ok a =>
  cases h2 : configRequire m "subdomain" with
  | error e => rw [h1, h2] at hparse; simp [Bind.bind, Except.bind] at hparse
  | ok b =>
  cases h3 : configRequire m "platformStack" with
  | error e => rw [h1, h2, h3] at hparse; simp [Bind.bind, Except.bind] at hparse
  | ok p =>
  cases h4 : configGetBoolean m "useFargateSpot" with
  | error e =>
    rw [h1, h2, h3, h4] at hparse
    simp [Bind.bind, Except.bind] at hparse
  | ok ofs =>
  cases h5 : configGetBoolean m "enableScheduledScaling" with
  | error e =>
    rw [h1, h2, h3, h4, h5] at hparse
    simp [Bind.bind, Except.bind] at hparse
  | ok oss =>
  rw [h1, h2, h3, h4, h5] at hparse
  simp [Bind.bind, Except.bind, Pure.pure, Except.pure] at hparse
  subst hparse
  refine ⟨?_, ?_, ?_, ?_, ?_, ?_, ?_, ?_, ?_⟩
  · intro h
    rw [h]
    show jsParseInt (jsOr none "256") = some 256
    decide
  · intro h
    rw [h]
    show jsParseInt (jsOr none "512") = some 512
    decide
  · intro h
    rw [h]
    show jsParseInt (jsOr none "1") = some 1
    decide
  · intro h
    rw [h]
    show jsParseInt (jsOr none "3000") = some 3000
    decide
  · intro h
    simp [configGetBoolean, h] at h4
    subst h4
    rfl
  · intro h
    simp [configGetBoolean, h] at h5
    subst h5
    rfl
  · intro h
    rw [h]
    show jsParseInt (jsOr none "6") = some 6
    decide
  · intro h
    rw [h]
    show jsParseInt (jsOr none "22") = some 22
    decide
  · intro h
    rw [h]
    rfl

set_option maxRecDepth 8192 in
/-- C6 witness: `demoMixedConfigMap` supplies the required keys plus
`cpu = "512"`, omitting the other optional keys; the parsed
configuration is `demoMixedAppConfig`, which keeps the supplied cpu
512 while every omitted optional field carries its code default. -/
theorem optional_config_defaults_witness :
    parseAppConfig demoMixedConfigMap = Except.ok demoMixedAppConfig
    ∧ ((configGet demoMixedConfigMap "cpu" = none →
          demoMixedAppConfig.cpu = some 256)
       ∧ (configGet demoMixedConfigMap "memory" = none →
          demoMixedAppConfig.memory = some 512)
       ∧ (configGet demoMixedConfigMap "desiredCount" = none →
          demoMixedAppConfig.desiredCount = some 1)
       ∧ (configGet demoMixedConfigMap "containerPort" = none →
          demoMixedAppConfig.containerPort = some 3000)
       ∧ (configGet demoMixedConfigMap "useFargateSpot" = none →
          demoMixedAppConfig.useFargateSpot = true)
       ∧ (configGet demoMixedConfigMap "enableScheduledScaling" = none →
          demoMixedAppConfig.enableScheduledScaling = false)
       ∧ (configGet demoMixedConfigMap "scaleUpHour" = none →
          demoMixedAppConfig.scaleUpHour = some 6)
       ∧ (configGet demoMixedConfigMap "scaleDownHour" = none →
          demoMixedAppConfig.scaleDownHour = some 22)
       ∧ (configGet demoMixedConfigMap "scheduleTimezone" = none →
          demoMixedAppConfig.scheduleTimezone = "America/Denver"))
    ∧ configGet demoMixedConfigMap "cpu" = some "512"
    ∧ demoMixedAppConfig.cpu = some 512
    ∧ configGet demoMixedConfigMap "memory" = none
    ∧ demoMixedAppConfig.memory = some 512
    ∧ demoMixedAppConfig.desiredCount = some 1
    ∧ demoMixedAppConfig.containerPort = some 3000
    ∧ demoMixedAppConfig.useFargateSpot = true
    ∧ demoMixedAppConfig.enableScheduledScaling = false
    ∧ demoMixedAppConfig.scaleUpHour = some 6
    ∧ demoMixedAppConfig.scaleDownHour = some 22
    ∧ demoMixedAppConfig.scheduleTimezone = "America/Denver" :=
  ⟨by decide,
   optional_config_defaults demoMixedConfigMap demoMixedAppConfig (by decide),
   by decide, by decide, by decide, by decide, by decide, by decide,
   by decide, by decide, by decide, by decide, by decide⟩

/-- C7: if any required configuration key of an app unit (`appName`,
`subdomain`, or `platformStack`) is absent, the run fails with a
missing-key configuration error before any resource declaration is
built — the build returns that error and never a declaration list. -/
theorem required_key_failfast (m : ConfigMap) (snap : Snapshot)
    (h : configGet m "appName" = none ∨ configGet m "subdomain" = none
         ∨ configGet m "platformStack" = none) :
    (∃ k, parseAppConfig m = Except.error (ConfigError.missingKey k)
       ∧ buildApp m snap = Except.error (ConfigError.missingKey k))
    ∧ ∀ ds : List Decl, buildApp m snap ≠ Except.ok ds := by
  have herr : ∃ k, parseAppConfig m = Except.error (ConfigError.missingKey k) := by
    unfold parseAppConfig
    cases ha : configGet m "appName" with
    | none =>
      exact ⟨"appName", by simp [configRequire, ha, Bind.bind, Except.bind]⟩
    | some a =>
      cases hb : configGet m "subdomain" with
      | none =>
        exact ⟨"subdomain",
          by simp [configRequire, ha, hb, Bind.bind, Except.bind]⟩
      | some b =>
        cases hp : configGet m "platformStack" with
        | none =>
          exact ⟨"platformStack",
            by simp [configRequire, ha, hb, hp, Bind.bind, Except.bind]⟩
        | some p =>
          rcases h with h | h | h <;> simp_all
  obtain ⟨k, hk⟩ := herr
  refine ⟨⟨k, hk, ?_⟩, ?_⟩
  · simp [buildApp, hk, Except.map]
  · intro ds hds
    simp [buildApp, hk, Except.map] at hds

/-- C7 witness: the empty configuration map is missing `appName`; the
build fails with `missingKey "appName"` and yields no declaration
list. -/
theorem required_key_failfast_witness :
    (configGet ([] : ConfigMap) "appName" = none
     ∨ configGet ([] : ConfigMap) "subdomain" = none
     ∨ configGet ([] : ConfigMap) "platformStack" = none)
    ∧ ((∃ k, parseAppConfig [] = Except.error (ConfigError.missingKey k)
          ∧ buildApp [] [] = Except.error (ConfigError.missingKey k))
       ∧ ∀ ds : List Decl, buildApp [] [] ≠ Except.ok ds) :=
  ⟨Or.inl rfl, required_key_failfast [] [] (Or.inl rfl)⟩

/-- C8: for every app unit with configured subdomain and a referenced
platform `domainName`, the exported public URL string equals exactly
`"https://" ++ subdomain ++ "." ++ domainName`. -/
theorem app_url_format (cfg : AppConfig) (snap : Snapshot) (d : String)
    (h : resolveOutput snap "domainName" = some d) :
    resolveOutput (appOutputs cfg snap) "appUrl"
      = some ("https://" ++ cfg.subdomain ++ "." ++ d) := by
  unfold appOutputs
  rw [h]
  simp [resolveOutput, List.find?, jsTemplate]

/-- C8 witness: the demo app against a platform exporting
`domainName = "cwnel.com"` publishes
`appUrl = "https://my-app.cwnel.com"`. -/
theorem app_url_format_witness :
    resolveOutput [("domainName", "cwnel.com")] "domainName" = some "cwnel.com"
    ∧ resolveOutput (appOutputs demoAppConfig [("domainName", "cwnel.com")]) "appUrl"
        = some ("https://" ++ demoAppConfig.subdomain ++ "." ++ "cwnel.com")
    ∧ ("https://" ++ demoAppConfig.subdomain ++ "." ++ "cwnel.com")
        = "https://my-app.cwnel.com" :=
  ⟨rfl, app_url_format demoAppConfig [("domainName", "cwnel.com")] "cwnel.com" rfl,
   rfl⟩

theorem arnOf_ne_empty (x : String) : arnOf x ≠ "" := by
  intro hx
  have h0 : (arnOf x).length = 0 := by rw [hx]; rfl
  unfold arnOf at h0
  rw [String.length_append] at h0
  have h4 : ("arn:" : String).length = 4 := rfl
  omega

/-- C9: when the `certificateArn` input of `createAlb` is omitted, the
returned `httpsListenerArn` is not absent but equals the HTTP
(port-80) listener's ARN (and no HTTPS listener is declared); when
`certificateArn` is supplied, `httpsListenerArn` equals the HTTPS
(port-443) listener's ARN (which is declared). -/
theorem createAlb_https_listener_fallback (name : String) (inputs : AlbInputs) :
    (inputs.certificateArn = none →
      (createAlb name inputs).outputs.httpsListenerArn
          = (createAlb name inputs).outputs.httpListenerArn
      ∧ (createAlb name inputs).outputs.httpListenerArn
          = arnOf (name ++ "-http-listener")
      ∧ Decl.listener (name ++ "-http-listener") 80 "HTTP"
          ∈ (createAlb name inputs).decls
      ∧ Decl.listener (name ++ "-https-listener") 443 "HTTPS"
          ∉ (createAlb name inputs).decls)
    ∧ (∀ c, inputs.certificateArn = some c →
      (createAlb name inputs).outputs.httpsListenerArn
          = arnOf (name ++ "-https-listener")
      ∧ Decl.listener (name ++ "-https-listener") 443 "HTTPS"
          ∈ (createAlb name inputs).decls) := by
  constructor
  · intro h
    refine ⟨?_, rfl, ?_, ?_⟩ <;> simp [createAlb, h, jsOr]
  · intro c h
    refine ⟨?_, ?_⟩ <;>
      simp [createAlb, h, jsOr, Decl.logicalName, arnOf_ne_empty]

/-- C9 witness: `createAlb` without a certificate falls back to the
HTTP listener's ARN; with a certificate it returns the HTTPS
listener's ARN. -/
theorem createAlb_https_listener_fallback_witness :
    ((createAlb "portfolio-dev" ⟨"vpc", [], none⟩).outputs.httpsListenerArn
        = (createAlb "portfolio-dev" ⟨"vpc", [], none⟩).outputs.httpListenerArn
     ∧ (createAlb "portfolio-dev" ⟨"vpc", [], none⟩).outputs.httpListenerArn
        = arnOf ("portfolio-dev" ++ "-http-listener")
     ∧ Decl.listener ("portfolio-dev" ++ "-http-listener") 80 "HTTP"
        ∈ (createAlb "portfolio-dev" ⟨"vpc", [], none⟩).decls
     ∧ Decl.listener ("portfolio-dev" ++ "-https-listener") 443 "HTTPS"
        ∉ (createAlb "portfolio-dev" ⟨"vpc", [], none⟩).decls)
    ∧ ((createAlb "portfolio-dev" ⟨"vpc", [], some "cert"⟩).outputs.httpsListenerArn
        = arnOf ("portfolio-dev" ++ "-https-listener")
       ∧ Decl.listener ("portfolio-dev" ++ "-https-listener") 443 "HTTPS"
        ∈ (createAlb "portfolio-dev" ⟨"vpc", [], some "cert"⟩).decls) :=
  ⟨(createAlb_https_listener_fallback "portfolio-dev" ⟨"vpc", [], none⟩).1 rfl,
   (createAlb_https_listener_fallback "portfolio-dev"
     ⟨"vpc", [], some "cert"⟩).2 "cert" rfl⟩

/-- C10 counterexample: a resolved `dbEndpoint` that is present but
empty (`some ""`) is falsy in JS, so the code adds no `DB_*`
environment entries at all — refuting the claim's "whenever the
resolved dbEndpoint is present". -/
theorem db_env_truthiness_counterexample :
    (some "" : Option String).isSome = true
    ∧ (containerDefinitions "my-app" (some 3000) "url:my-app-repo"
         (some "lg") (some "us-east-1") (some "") none).map
           (fun c => c.environment.map EnvVar.name)
        = [["NODE_ENV", "PORT"]] := by
  decide

/-- C10 (amended): whenever the resolved `dbEndpoint` is present AND
nonempty (JS truthiness), the app container environment is extended
by exactly `DB_HOST` = the endpoint truncated at its first `':'`,
`DB_PORT` = the constant `"5432"` regardless of the endpoint's actual
port, `DB_NAME` = appName with every `'-'` replaced by `'_'`, and
`DB_USER` = the constant `"portfolio_admin"`; the `DB_PASSWORD`
secret entry is added iff the resolved `dbPasswordSecretArn` is
present and nonempty, and the `secrets` field is entirely absent
(`none`, not an empty list) when no secret was added. -/
theorem db_env_derivation (appName : String) (containerPort : Option Int)
    (repoUrl : String) (logGroup awsRegion : Option String)
    (dbHost dbSecretArn : Option String) (h : String)
    (hh : dbHost = some h) (hne : h ≠ "") :
    ∀ c ∈ containerDefinitions appName containerPort repoUrl logGroup
        awsRegion dbHost dbSecretArn,
      c.environment
        = containerEnv containerPort
          ++ [⟨"DB_HOST", splitColonHead h⟩, ⟨"DB_PORT", "5432"⟩,
              ⟨"DB_NAME", replaceDashUnderscore appName⟩,
              ⟨"DB_USER", "portfolio_admin"⟩]
      ∧ (jsTruthy dbSecretArn = true →
          c.secrets = some [⟨"DB_PASSWORD", dbSecretArn.getD ""⟩])
      ∧ (jsTruthy dbSecretArn = false → c.secrets = none) := by
  intro c hc
  subst hh
  have henv : jsTruthy (some h) = true := by simp [jsTruthy, hne]
  cases hts : jsTruthy dbSecretArn <;>
    simp [containerDefinitions, henv, hts] at hc <;>
    subst hc <;>
    simp [hts]

/-- C10 witness: a nonempty endpoint carrying a non-default port
(`"db.example.com:5433"`) and a present secret ARN; `DB_HOST` drops
the port, `DB_PORT` stays `"5432"`, and `DB_NAME` underscores the app
name. -/
theorem db_env_derivation_witness :
    (some "db.example.com:5433" : Option String) = some "db.example.com:5433"
    ∧ "db.example.com:5433" ≠ ""
    ∧ (∀ c ∈ containerDefinitions "my-app" (some 3000) "url:my-app-repo"
          (some "lg") (some "us-east-1")
          (some "db.example.com:5433") (some "arn:secret"),
        c.environment
          = containerEnv (some 3000)
            ++ [⟨"DB_HOST", splitColonHead "db.example.com:5433"⟩,
                ⟨"DB_PORT", "5432"⟩,
                ⟨"DB_NAME", replaceDashUnderscore "my-app"⟩,
                ⟨"DB_USER", "portfolio_admin"⟩]
        ∧ (jsTruthy (some "arn:secret") = true →
            c.secrets = some [⟨"DB_PASSWORD", (some "arn:secret").getD ""⟩])
        ∧ (jsTruthy (some "arn:secret") = false → c.secrets = none))
    ∧ splitColonHead "db.example.com:5433" = "db.example.com"
    ∧ replaceDashUnderscore "my-app" = "my_app" :=
  ⟨rfl, by decide,
   db_env_derivation "my-app" (some 3000) "url:my-app-repo"
     (some "lg") (some "us-east-1")
     (some "db.example.com:5433") (some "arn:secret")
     "db.example.com:5433" rfl (by decide),
   by decide, by decide⟩

end Infra
